import Mathlib

/-
Verification of the relay-query-wrapper core: the query-binding combinator
`withQuery` (the Resolution State Machine of spec §4.1 and the Binding
Combinator of §4.2) and the context-sourced variant `withContextQuery`
(src/withContextQuery.tsx), over the data model of src/types.ts.

Shallow embedding choices:
- A query-reference prop value is `PreloadedQuery<Query> | null | undefined`
  (src/types.ts); `null` and `undefined` are kept as distinct constructors.
- A present `PreloadedQuery` is either still pending or resolved; reading a
  resolved reference's payload may suspend the render pass, modelled by the
  `PayloadRead` outcome carried inside the resolved constructor.
- Props are association lists from string keys to values; JSX spread
  `{...passThrough} {...derived}` (later spread wins per key) is the
  `mergeProps` function, whose per-key semantics is settled by the
  `lookupProp` lemmas below.
- Rendering output is a symbolic `Rendered` value: a placeholder element,
  nothing, a suspension propagated upward, or the inner component invoked
  with a concrete prop list.
-/

namespace RelayQueryWrapper

/-- Outcome of reading a resolved query reference's payload: the payload is
fully available, or the read suspends the current render pass (spec §5). -/
inductive PayloadRead (P : Type) where
  | ready (payload : P)
  | suspendedRead
  deriving DecidableEq

/-- A present query reference handle: requested but not yet resolved, or
resolved with a payload read outcome. -/
inductive PreloadedQuery (P : Type) where
  | pending
  | resolved (read : PayloadRead P)
  deriving DecidableEq

/-- The query-reference prop value, from src/types.ts:
`PreloadedQuery<Query> | null | undefined`. Both `null` and `undefined` are
admitted and kept distinct at the interface. -/
inductive QueryRef (P : Type) where
  | nullRef
  | undefinedRef
  | loaded (q : PreloadedQuery P)
  deriving DecidableEq

/-- Props as an association list from string keys to values. -/
abbrev PropList (V : Type) := List (String × V)

/-- Lookup of a prop by key: the first entry with the key wins. -/
def lookupProp {V : Type} : PropList V → String → Option V
  | [], _ => none
  | (k2, v) :: rest, k => if k2 = k then some v else lookupProp rest k

/-- Merge of derived props into pass-through props, modelling the JSX spread
`{...passThrough} {...derived}`: derived values win on key collision, and
every pass-through entry whose key is not in the derived props is kept. -/
def mergeProps {V : Type} (passThrough derived : PropList V) : PropList V :=
  derived ++ passThrough.filter fun kv => (lookupProp derived kv.1).isNone

/-- The Binding Configuration record (spec §3): the Data Projector
`dataToProps` (required; `none` output is the absent marker), the three
optional placeholder elements, and the optional operation identifier
`query`, which has no behavior beyond pass-through to the external runtime. -/
structure Config (P El V : Type) where
  query : Option String := none
  dataToProps : P → Option (PropList V)
  fallbackElement : Option El := none
  preloadElement : Option El := none
  noDataElement : Option El := none

/-- Symbolic rendering output of a wrapped component. `inner props` stands
for the inner component invoked with exactly `props`. -/
inductive Rendered (El V : Type) where
  | nothingNode
  | element (el : El)
  | inner (props : PropList V)
  | suspended
  deriving DecidableEq

/-- Render an optional placeholder element, or nothing when unset. -/
def elementOr {El V : Type} : Option El → Rendered El V
  | some el => .element el
  | none => .nothingNode

/-- Modelled from the spec: src/ does not contain withQuery.tsx (only its
importer src/withContextQuery.tsx, src/types.ts and the README are present),
so the Resolution State Machine and the wrapped component's render behavior
are taken from spec §4.1, §4.2 and §5:
absent (null or undefined reference) renders `preloadElement`, defaulting to
`fallbackElement` when unset and to nothing when both are unset (§3, §9);
pending renders `fallbackElement` or nothing, synchronously; a resolved
reference whose payload read suspends propagates the suspension; a resolved
reference with `dataToProps payload = absent` renders `noDataElement` or
nothing; otherwise the inner component renders with the derived props merged
into the pass-through props, derived values winning on key collision. -/
def renderWrapped {P El V : Type} (cfg : Config P El V) (ref : QueryRef P)
    (passThrough : PropList V) : Rendered El V :=
  match ref with
  | .nullRef => elementOr (cfg.preloadElement.orElse fun _ => cfg.fallbackElement)
  | .undefinedRef => elementOr (cfg.preloadElement.orElse fun _ => cfg.fallbackElement)
  | .loaded .pending => elementOr cfg.fallbackElement
  | .loaded (.resolved .suspendedRead) => .suspended
  | .loaded (.resolved (.ready p)) =>
      match cfg.dataToProps p with
      | none => elementOr cfg.noDataElement
      | some derived => .inner (mergeProps passThrough derived)

/-- The three externally visible reference states of spec §3. -/
inductive Tag where
  | absentTag
  | pendingTag
  | resolvedTag
  deriving DecidableEq

/-- Reference state as reported by the external runtime: `null` and
`undefined` both count as absent. -/
def stateTag {P : Type} : QueryRef P → Tag
  | .nullRef => .absentTag
  | .undefinedRef => .absentTag
  | .loaded .pending => .pendingTag
  | .loaded (.resolved _) => .resolvedTag

/-- A reference whose payload read does not suspend this render pass. -/
def refReady {P : Type} : QueryRef P → Bool
  | .loaded (.resolved .suspendedRead) => false
  | _ => true

/-- The projector output when the reference is resolved with an available
payload, and `none` otherwise. -/
def projOutput {P El V : Type} (cfg : Config P El V) :
    QueryRef P → Option (Option (PropList V))
  | .loaded (.resolved (.ready p)) => some (cfg.dataToProps p)
  | _ => none

/-- The four render branches of the Resolution State Machine (spec §4.1). -/
inductive Branch where
  | preload
  | loading
  | noData
  | innerComp
  deriving DecidableEq

/-- Branch selection of the Resolution State Machine. Suspension during the
payload read is part of the resolved/inner branch, not a separate state
(spec §4.1). -/
def selectBranch {P El V : Type} (cfg : Config P El V) : QueryRef P → Branch
  | .nullRef => .preload
  | .undefinedRef => .preload
  | .loaded .pending => .loading
  | .loaded (.resolved .suspendedRead) => .innerComp
  | .loaded (.resolved (.ready p)) =>
      match cfg.dataToProps p with
      | none => .noData
      | some _ => .innerComp

/-- Branch selection as a function of the reference state tag and the
projector output alone. -/
def branchFrom {V : Type} : Tag → Option (Option (PropList V)) → Branch
  | .absentTag, _ => .preload
  | .pendingTag, _ => .loading
  | .resolvedTag, some none => .noData
  | .resolvedTag, _ => .innerComp

theorem selectBranch_eq_branchFrom {P El V : Type} (cfg : Config P El V)
    (ref : QueryRef P) (h : refReady ref = true) :
    selectBranch cfg ref = branchFrom (stateTag ref) (projOutput cfg ref) := by
  rcases ref with _ | _ | q
  · rfl
  · rfl
  · rcases q with _ | r
    · rfl
    · rcases r with p | _
      · cases hd : cfg.dataToProps p <;>
          simp [selectBranch, branchFrom, stateTag, projOutput, hd]
      · simp [refReady] at h

theorem lookupProp_append_some {V : Type} {a : PropList V} (b : PropList V)
    {k : String} {v : V} (h : lookupProp a k = some v) :
    lookupProp (a ++ b) k = some v := by
  induction a with
  | nil => simp [lookupProp] at h
  | cons kv rest ih =>
      rcases kv with ⟨k2, w⟩
      by_cases hk : k2 = k
      · simp [lookupProp, hk] at h ⊢
        exact h
      · simp [lookupProp, hk] at h ⊢
        exact ih h

theorem lookupProp_append_none {V : Type} {a : PropList V} (b : PropList V)
    {k : String} (h : lookupProp a k = none) :
    lookupProp (a ++ b) k = lookupProp b k := by
  induction a with
  | nil => rfl
  | cons kv rest ih =>
      rcases kv with ⟨k2, w⟩
      by_cases hk : k2 = k
      · simp [lookupProp, hk] at h
      · simp [lookupProp, hk] at h ⊢
        exact ih h

theorem lookupProp_filter {V : Type} (l : PropList V) (pr : String × V → Bool)
    {k : String} (hk : ∀ v : V, pr (k, v) = true) :
    lookupProp (l.filter pr) k = lookupProp l k := by
  induction l with
  | nil => rfl
  | cons kv rest ih =>
      rcases kv with ⟨k2, w⟩
      by_cases hkk : k2 = k
      · subst hkk
        simp [List.filter, hk w, lookupProp, ih]
      · cases hp : pr (k2, w) <;> simp [List.filter, hp, lookupProp, hkk, ih]

/-- Per-key semantics of `mergeProps`: a key present in the derived props
takes the derived value. -/
theorem lookupProp_merge_derived {V : Type} (passThrough : PropList V)
    {derived : PropList V} {k : String} {v : V}
    (h : lookupProp derived k = some v) :
    lookupProp (mergeProps passThrough derived) k = some v :=
  lookupProp_append_some _ h

/-- Per-key semantics of `mergeProps`: a key absent from the derived props
keeps its pass-through value unchanged. -/
theorem lookupProp_merge_passthrough {V : Type} (passThrough : PropList V)
    {derived : PropList V} {k : String} (h : lookupProp derived k = none) :
    lookupProp (mergeProps passThrough derived) k = lookupProp passThrough k := by
  unfold mergeProps
  rw [lookupProp_append_none _ h]
  exact lookupProp_filter passThrough _ fun v => by simp [h]

theorem elementOr_ne_suspended {El V : Type} (o : Option El) :
    (elementOr o : Rendered El V) ≠ .suspended := by
  cases o <;> simp [elementOr]

theorem elementOr_ne_inner {El V : Type} (o : Option El) (ps : PropList V) :
    (elementOr o : Rendered El V) ≠ .inner ps := by
  cases o <;> simp [elementOr]

/-- A function component: a debug name (the function's name, possibly empty
for anonymous functions), an optional `displayName`, and a render function. -/
structure FC (Pr El V : Type) where
  name : String := ""
  displayName : Option String := none
  render : Pr → Rendered El V

/-- The base debug name of a component: `displayName ?? name`. -/
def baseNameOf {Pr El V : Type} (c : FC Pr El V) : String :=
  c.displayName.getD c.name

/-- Modelled from the spec: src/ does not contain withQuery.tsx, so the
Binding Combinator (spec §4.2) is modelled here. It takes the configuration
and the inner component and produces a component whose props are the query
reference plus the pass-through props, rendering via `renderWrapped`. The
spec only asks for a debug label derived from the inner component's name,
without fixing its format; the model uses the base name suffixed with
"WithQuery". -/
def withQuery {P El V : Type} (cfg : Config P El V) (c : FC (PropList V) El V) :
    FC (QueryRef P × PropList V) El V :=
  { displayName := some (baseNameOf c ++ "WithQuery"),
    render := fun rp => renderWrapped cfg rp.1 rp.2 }

/-- The ambient context value read by the context-sourced combinator: the
context type `Ctx extends QueryRef<Query>` holds the reference under the
fixed `queryRef` slot and may carry further fields, modelled by `extra`. -/
structure ContextValue (P Extra : Type) where
  queryRef : QueryRef P
  extra : Extra

/-- A component rendered under an ambient context: its render function
additionally receives the current context value (the `useContext` read). -/
structure ContextFC (Ctx Pr El V : Type) where
  name : String := ""
  displayName : Option String := none
  render : Ctx → Pr → Rendered El V

/-- The context-sourced binding combinator, from src/withContextQuery.tsx:
it computes the inner component's base name, builds the ordinary `withQuery`
component over the same inner component and remaining options, and returns a
component that reads `queryRef` from the ambient context value and invokes
the wrapped component with that reference plus all incoming props unchanged;
its `displayName` is the base name suffixed with "ContextAccessor". -/
def withContextQuery {P El V Extra : Type} (cfg : Config P El V)
    (c : FC (PropList V) El V) :
    ContextFC (ContextValue P Extra) (PropList V) El V :=
  let baseName := c.displayName.getD c.name
  let wq := withQuery cfg c
  { displayName := some (baseName ++ "ContextAccessor"),
    render := fun ctx props => wq.render (ctx.queryRef, props) }

/-- Concrete configuration for witnesses, after the README's FilmDetail
example: payload is an optional value, the projector yields a derived prop
only when the payload is set, and all three placeholders are configured. -/
def cfgA : Config (Option Nat) String String :=
  { query := some "FilmQuery",
    dataToProps := fun p => p.map fun n => [("filmKey", toString n)],
    fallbackElement := some "Loading...",
    preloadElement := some "Search for a film",
    noDataElement := some "Film not found!" }

/-- Concrete configuration with every optional placeholder unset. -/
def cfgBare : Config (Option Nat) String String :=
  { dataToProps := fun p => p.map fun n => [("filmKey", toString n)] }

/-- Concrete configuration with `preloadElement` unset but a fallback set. -/
def cfgFallbackOnly : Config (Option Nat) String String :=
  { dataToProps := fun p => p.map fun n => [("filmKey", toString n)],
    fallbackElement := some "Loading..." }

/-- Concrete inner component for witnesses. -/
def filmDetail : FC (PropList String) String String :=
  { name := "FilmDetail", render := fun _ => .nothingNode }

/-- C1: for every reference state (absent, pending, resolved with an
available payload), the Resolution State Machine selects exactly one of the
four render branches; the selected branch is a pure function of the
reference state tag, the resolved payload or its absence, and the projector
output — two evaluations agreeing on the state tag and the projector output
select the same branch, whatever the placeholder elements, the `query`
field, the payloads, or the pass-through props; and the inner-component
branch is selected exactly when the render output invokes the inner
component. -/
theorem c1_branch_selection {P El V : Type} (cfg cfg2 : Config P El V)
    (ref ref2 : QueryRef P) (pt : PropList V)
    (hr : refReady ref = true) (hr2 : refReady ref2 = true)
    (htag : stateTag ref = stateTag ref2)
    (hproj : projOutput cfg ref = projOutput cfg2 ref2) :
    (∃! b : Branch, selectBranch cfg ref = b) ∧
    selectBranch cfg ref = selectBranch cfg2 ref2 ∧
    (selectBranch cfg ref = Branch.innerComp ↔
      ∃ ps, renderWrapped cfg ref pt = Rendered.inner ps) := by
  refine ⟨⟨selectBranch cfg ref, rfl, fun b hb => hb.symm⟩, ?_, ?_⟩
  · rw [selectBranch_eq_branchFrom cfg ref hr,
      selectBranch_eq_branchFrom cfg2 ref2 hr2, htag, hproj]
  · rcases ref with _ | _ | q
    · simpa [selectBranch, renderWrapped] using
        fun ps => elementOr_ne_inner _ ps
    · simpa [selectBranch, renderWrapped] using
        fun ps => elementOr_ne_inner _ ps
    · rcases q with _ | r
      · simpa [selectBranch, renderWrapped] using
          fun ps => elementOr_ne_inner _ ps
      · rcases r with p | _
        · cases hd : cfg.dataToProps p
          · simpa [selectBranch, renderWrapped, hd] using
              fun ps => elementOr_ne_inner _ ps
          · simp [selectBranch, renderWrapped, hd]
        · simp [refReady] at hr

theorem c1_witness :
    (refReady (QueryRef.nullRef : QueryRef (Option Nat)) = true ∧
      refReady (QueryRef.undefinedRef : QueryRef (Option Nat)) = true ∧
      stateTag (QueryRef.nullRef : QueryRef (Option Nat)) =
        stateTag (QueryRef.undefinedRef : QueryRef (Option Nat)) ∧
      projOutput cfgA QueryRef.nullRef = projOutput cfgBare QueryRef.undefinedRef) ∧
    ((∃! b : Branch, selectBranch cfgA QueryRef.nullRef = b) ∧
      selectBranch cfgA QueryRef.nullRef = selectBranch cfgBare QueryRef.undefinedRef ∧
      (selectBranch cfgA QueryRef.nullRef = Branch.innerComp ↔
        ∃ ps, renderWrapped cfgA QueryRef.nullRef [("color", "red")] =
          Rendered.inner ps)) :=
  ⟨⟨rfl, rfl, rfl, rfl⟩,
    c1_branch_selection cfgA cfgBare QueryRef.nullRef QueryRef.undefinedRef
      [("color", "red")] rfl rfl rfl rfl⟩

/-- C4: when the query reference is absent (null or undefined) and a
`preloadElement` is configured, the wrapped component renders exactly that
element, whatever the pass-through props. -/
theorem c4_absent_preload {P El V : Type} (cfg : Config P El V) (el : El)
    (pt : PropList V) (hp : cfg.preloadElement = some el) :
    renderWrapped cfg QueryRef.nullRef pt = Rendered.element el ∧
    renderWrapped cfg QueryRef.undefinedRef pt = Rendered.element el := by
  constructor <;> simp [renderWrapped, hp, Option.orElse, elementOr]

theorem c4_witness :
    cfgA.preloadElement = some "Search for a film" ∧
    (renderWrapped cfgA QueryRef.nullRef [("color", "red")] =
        Rendered.element "Search for a film" ∧
      renderWrapped cfgA QueryRef.undefinedRef [("color", "red")] =
        Rendered.element "Search for a film") :=
  ⟨rfl, c4_absent_preload cfgA "Search for a film" [("color", "red")] rfl⟩

/-- C5: when the query reference is pending and a `fallbackElement` is
configured, the wrapped component renders exactly that element, whatever the
pass-through props (a pending reference carries no payload); moreover no
reference whose state is absent or pending ever renders as suspended. -/
theorem c5_pending_fallback {P El V : Type} (cfg : Config P El V) (el : El)
    (pt : PropList V) (hf : cfg.fallbackElement = some el) :
    renderWrapped cfg (QueryRef.loaded PreloadedQuery.pending) pt =
      Rendered.element el ∧
    (∀ r : QueryRef P, stateTag r ≠ Tag.resolvedTag →
      renderWrapped cfg r pt ≠ Rendered.suspended) := by
  constructor
  · simp [renderWrapped, hf, elementOr]
  · intro r hr
    rcases r with _ | _ | q
    · exact elementOr_ne_suspended _
    · exact elementOr_ne_suspended _
    · rcases q with _ | s
      · exact elementOr_ne_suspended _
      · simp [stateTag] at hr

theorem c5_witness :
    cfgA.fallbackElement = some "Loading..." ∧
    (renderWrapped cfgA (QueryRef.loaded PreloadedQuery.pending) [] =
        Rendered.element "Loading..." ∧
      (∀ r : QueryRef (Option Nat), stateTag r ≠ Tag.resolvedTag →
        renderWrapped cfgA r [] ≠ Rendered.suspended)) :=
  ⟨rfl, c5_pending_fallback cfgA "Loading..." [] rfl⟩

/-- C6: when the reference is resolved with payload `p` and the projector
yields the absent marker, the wrapped component renders exactly the
configured `noDataElement` and never invokes the inner component: the absent
projector output is a designed no-data rendering, not an error (the model's
output type has no error outcome, matching spec §4.1). -/
theorem c6_no_data {P El V : Type} (cfg : Config P El V) (p : P) (el : El)
    (pt : PropList V) (hd : cfg.dataToProps p = none)
    (hn : cfg.noDataElement = some el) :
    renderWrapped cfg (QueryRef.loaded (PreloadedQuery.resolved
      (PayloadRead.ready p))) pt = Rendered.element el ∧
    (∀ ps, renderWrapped cfg (QueryRef.loaded (PreloadedQuery.resolved
      (PayloadRead.ready p))) pt ≠ Rendered.inner ps) := by
  constructor
  · simp [renderWrapped, hd, hn, elementOr]
  · intro ps
    simp only [renderWrapped, hd]
    exact elementOr_ne_inner _ ps

theorem c6_witness :
    cfgA.dataToProps none = none ∧
    cfgA.noDataElement = some "Film not found!" ∧
    (renderWrapped cfgA (QueryRef.loaded (PreloadedQuery.resolved
        (PayloadRead.ready none)))
      [("color", "red")] = Rendered.element "Film not found!" ∧
      (∀ ps, renderWrapped cfgA (QueryRef.loaded (PreloadedQuery.resolved
        (PayloadRead.ready none)))
        [("color", "red")] ≠ Rendered.inner ps)) :=
  ⟨rfl, rfl, c6_no_data cfgA none "Film not found!" [("color", "red")] rfl rfl⟩

/-- C2: when the reference is resolved and the projector yields derived
props, the inner component is invoked with exactly the merge of the derived
props into the pass-through props: every key of the derived props is present
with the derived value (precedence on collision), every pass-through prop
whose key the derived props do not supply keeps its value unchanged, and no
pass-through prop is dropped. -/
theorem c2_merged_props {P El V : Type} (cfg : Config P El V) (p : P)
    (derived pt : PropList V) (hd : cfg.dataToProps p = some derived) :
    renderWrapped cfg (QueryRef.loaded (PreloadedQuery.resolved
      (PayloadRead.ready p))) pt = Rendered.inner (mergeProps pt derived) ∧
    (∀ k v, lookupProp derived k = some v →
      lookupProp (mergeProps pt derived) k = some v) ∧
    (∀ k, lookupProp derived k = none →
      lookupProp (mergeProps pt derived) k = lookupProp pt k) ∧
    (∀ k, (lookupProp pt k).isSome = true →
      (lookupProp (mergeProps pt derived) k).isSome = true) := by
  refine ⟨by simp [renderWrapped, hd], ?_, ?_, ?_⟩
  · intro k v h
    exact lookupProp_merge_derived pt h
  · intro k h
    exact lookupProp_merge_passthrough pt h
  · intro k h
    cases hdk : lookupProp derived k with
    | none => rw [lookupProp_merge_passthrough pt hdk]; exact h
    | some v => rw [lookupProp_merge_derived pt hdk]; rfl

theorem c2_witness :
    cfgA.dataToProps (some 3) = some [("filmKey", "3")] ∧
    (renderWrapped cfgA (QueryRef.loaded (PreloadedQuery.resolved
        (PayloadRead.ready (some 3))))
      [("color", "red"), ("filmKey", "overridden")] =
        Rendered.inner (mergeProps [("color", "red"), ("filmKey", "overridden")]
          [("filmKey", "3")]) ∧
      (∀ k v, lookupProp [("filmKey", "3")] k = some v →
        lookupProp (mergeProps [("color", "red"), ("filmKey", "overridden")]
          [("filmKey", "3")]) k = some v) ∧
      (∀ k, lookupProp [("filmKey", "3")] k = none →
        lookupProp (mergeProps [("color", "red"), ("filmKey", "overridden")]
          [("filmKey", "3")]) k =
          lookupProp [("color", "red"), ("filmKey", "overridden")] k) ∧
      (∀ k, (lookupProp [("color", "red"), ("filmKey", "overridden")] k).isSome
          = true →
        (lookupProp (mergeProps [("color", "red"), ("filmKey", "overridden")]
          [("filmKey", "3")]) k).isSome = true)) :=
  ⟨rfl, c2_merged_props cfgA (some 3) [("filmKey", "3")]
    [("color", "red"), ("filmKey", "overridden")] rfl⟩

/-- C3: the component produced by `withContextQuery` renders, for every
configuration, inner component, ambient context value and incoming props,
exactly what the `withQuery` component over the same configuration and inner
component renders when given the query reference read from the context plus
all incoming props unchanged; and only the `queryRef` slot of the context
value affects the output (its props surface is the wrapped component's
surface minus the query-reference input, which the `ContextFC` render
signature takes from the context instead). -/
theorem c3_context_delegation {P El V Extra : Type} (cfg : Config P El V)
    (c : FC (PropList V) El V) (ctx ctx2 : ContextValue P Extra)
    (props : PropList V) (hq : ctx.queryRef = ctx2.queryRef) :
    (withContextQuery cfg c).render ctx props =
      (withQuery cfg c).render (ctx.queryRef, props) ∧
    (withContextQuery cfg c).render ctx props =
      (withContextQuery cfg c).render ctx2 props := by
  constructor
  · rfl
  · simp only [withContextQuery, withQuery, hq]

theorem c3_witness :
    (ContextValue.mk (QueryRef.loaded PreloadedQuery.pending) 0 :
        ContextValue (Option Nat) Nat).queryRef =
      (ContextValue.mk (QueryRef.loaded PreloadedQuery.pending) 1).queryRef ∧
    ((withContextQuery cfgA filmDetail).render
        ⟨QueryRef.loaded PreloadedQuery.pending, 0⟩ [("color", "red")] =
      (withQuery cfgA filmDetail).render
        (QueryRef.loaded PreloadedQuery.pending, [("color", "red")]) ∧
    (withContextQuery cfgA filmDetail).render
        ⟨QueryRef.loaded PreloadedQuery.pending, 0⟩ [("color", "red")] =
      (withContextQuery cfgA filmDetail).render
        ⟨QueryRef.loaded PreloadedQuery.pending, 1⟩ [("color", "red")]) :=
  ⟨rfl, c3_context_delegation cfgA filmDetail
    ⟨QueryRef.loaded PreloadedQuery.pending, 0⟩
    ⟨QueryRef.loaded PreloadedQuery.pending, 1⟩ [("color", "red")] rfl⟩

/-- C7: the Resolution State Machine is deterministic and side-effect free:
any two evaluations with identical configuration, reference and pass-through
props yield the identical branch selection, the identical rendering output,
and the identical merged props. -/
theorem c7_deterministic {P El V : Type} (cfg cfg2 : Config P El V)
    (r r2 : QueryRef P) (pt pt2 d : PropList V)
    (h1 : cfg = cfg2) (h2 : r = r2) (h3 : pt = pt2) :
    selectBranch cfg r = selectBranch cfg2 r2 ∧
    renderWrapped cfg r pt = renderWrapped cfg2 r2 pt2 ∧
    mergeProps pt d = mergeProps pt2 d := by
  subst h1; subst h2; subst h3
  exact ⟨rfl, rfl, rfl⟩

theorem c7_witness :
    cfgA = cfgA ∧
    (selectBranch cfgA (QueryRef.loaded PreloadedQuery.pending) =
        selectBranch cfgA (QueryRef.loaded PreloadedQuery.pending) ∧
      renderWrapped cfgA (QueryRef.loaded PreloadedQuery.pending)
          [("color", "red")] =
        renderWrapped cfgA (QueryRef.loaded PreloadedQuery.pending)
          [("color", "red")] ∧
      mergeProps [("color", "red")] [("filmKey", "3")] =
        mergeProps [("color", "red")] [("filmKey", "3")]) :=
  ⟨rfl, c7_deterministic cfgA cfgA (QueryRef.loaded PreloadedQuery.pending)
    (QueryRef.loaded PreloadedQuery.pending) [("color", "red")]
    [("color", "red")] [("filmKey", "3")] rfl rfl rfl⟩

/-- C8: when `preloadElement` is omitted, the absent state renders the
`fallbackElement` placeholder behavior (the configured fallback element, or
nothing when that is unset too); in particular with both unset the absent
state renders nothing. -/
theorem c8_preload_default {P El V : Type} (cfg : Config P El V)
    (pt : PropList V) (hp : cfg.preloadElement = none) :
    renderWrapped cfg QueryRef.nullRef pt = elementOr cfg.fallbackElement ∧
    renderWrapped cfg QueryRef.undefinedRef pt = elementOr cfg.fallbackElement ∧
    (cfg.fallbackElement = none →
      renderWrapped cfg QueryRef.nullRef pt = Rendered.nothingNode ∧
      renderWrapped cfg QueryRef.undefinedRef pt = Rendered.nothingNode) := by
  refine ⟨?_, ?_, ?_⟩
  · simp [renderWrapped, hp, Option.orElse]
  · simp [renderWrapped, hp, Option.orElse]
  · intro hf
    constructor <;> simp [renderWrapped, hp, hf, Option.orElse, elementOr]

theorem c8_witness :
    cfgBare.preloadElement = none ∧
    cfgFallbackOnly.preloadElement = none ∧
    (renderWrapped cfgBare QueryRef.nullRef [("color", "red")] =
        Rendered.nothingNode ∧
      renderWrapped cfgFallbackOnly QueryRef.nullRef [("color", "red")] =
        Rendered.element "Loading...") := by
  refine ⟨rfl, rfl, ?_, ?_⟩
  · exact ((c8_preload_default cfgBare [("color", "red")] rfl).2.2 rfl).1
  · exact (c8_preload_default cfgFallbackOnly [("color", "red")] rfl).1

/-- C9: both combinators expose a debug label derived from the inner
component's base name (its `displayName` when set, else its function name):
the `withQuery` component carries a label containing the base name (the
exact format is not fixed by src/; the model suffixes "WithQuery"), and the
`withContextQuery` component's `displayName` is exactly the base name
suffixed with "ContextAccessor", as set in src/withContextQuery.tsx. -/
theorem c9_display_names {P El V Extra : Type} (cfg : Config P El V)
    (c : FC (PropList V) El V) :
    (withQuery cfg c).displayName =
      some ((c.displayName.getD c.name) ++ "WithQuery") ∧
    ((withContextQuery cfg c :
        ContextFC (ContextValue P Extra) (PropList V) El V)).displayName =
      some ((c.displayName.getD c.name) ++ "ContextAccessor") :=
  ⟨rfl, rfl⟩

/-- C10: the query-reference type admits both null and undefined (distinct
constructors of `QueryRef`), the wrapped component treats them identically
as the absent state, and the context-sourced component forwards whichever
value it reads from the context verbatim to the wrapped component, without
normalizing one into the other. -/
theorem c10_null_undefined {P El V Extra : Type} (cfg : Config P El V)
    (c : FC (PropList V) El V) (e1 e2 : Extra) (pt : PropList V) :
    (QueryRef.nullRef : QueryRef P) ≠ QueryRef.undefinedRef ∧
    stateTag (QueryRef.nullRef : QueryRef P) = Tag.absentTag ∧
    stateTag (QueryRef.undefinedRef : QueryRef P) = Tag.absentTag ∧
    renderWrapped cfg QueryRef.nullRef pt =
      renderWrapped cfg QueryRef.undefinedRef pt ∧
    (withContextQuery cfg c).render ⟨QueryRef.nullRef, e1⟩ pt =
      (withQuery cfg c).render (QueryRef.nullRef, pt) ∧
    (withContextQuery cfg c).render ⟨QueryRef.undefinedRef, e2⟩ pt =
      (withQuery cfg c).render (QueryRef.undefinedRef, pt) := by
  refine ⟨?_, rfl, rfl, rfl, rfl, rfl⟩
  intro h
  exact QueryRef.noConfusion h

end RelayQueryWrapper
